import Mathlib

/-!
Verification of the stress-inference decision pipeline of
`src/js/detection.js` (Stress-Detection-in-IT-employees).

The JavaScript code is shallowly embedded: JS numbers are modelled as `ℚ`
(all values reached by the claims are exact decimals), `Math.round` as
`jsRound` (round half toward +∞), JS truthiness of `x || d` on optional
numbers/strings as `jsOrQ`/`jsOrI`/`jsOrS`, object lookups as if-chains over
`String`, `localStorage`-backed history as an explicit `List`, and the
network / face-api / randomness effects as explicit oracle inputs in a
`DetectEnv` record.  `Array.prototype.sort` is modelled as a stable
insertion sort (the ECMAScript spec requires a stable result for a
consistent comparator, which determines the output uniquely), and
`Object.entries` over integer-like keys yields keys in ascending numeric
order, which is modelled by building the hour/count list from
`List.range 24`.  Bracket lookup on an object literal walks the prototype
chain, so `EMOTION_ALIASES[e]` is modelled with the inherited
`Object.prototype` members included (`emotionAliasLookup`); the other
lookup tables are modelled by their own keys only, because every claim
about them is evaluated on arguments drawn from their own-key domains.
-/

/-- JavaScript `Math.round`: round half toward positive infinity. -/
def jsRound (q : ℚ) : Int := ⌊q + 1/2⌋

/-- JavaScript `x || d` for an optional number: `undefined` and `0` are falsy. -/
def jsOrQ (x : Option ℚ) (d : ℚ) : ℚ :=
  match x with
  | some v => if v = 0 then d else v
  | none => d

/-- JavaScript `x || d` for an optional integer: `undefined` and `0` are falsy. -/
def jsOrI (x : Option Int) (d : Int) : Int :=
  match x with
  | some v => if v = 0 then d else v
  | none => d

/-- JavaScript `x || d` for an optional string: `undefined` and `""` are falsy. -/
def jsOrS (x : Option String) (d : String) : String :=
  match x with
  | some v => if v = "" then d else v
  | none => d

/-- Lookup of `EMOTIONS[e].stressFactor` (detection.js lines 26-34). -/
def emotionStressFactor (e : String) : Option String :=
  if e = "Neutral" then some "Low"
  else if e = "Happy" then some "Low"
  else if e = "Sad" then some "High"
  else if e = "Angry" then some "High"
  else if e = "Fearful" then some "High"
  else if e = "Disgusted" then some "High"
  else if e = "Surprised" then some "Medium"
  else none

/-- Lookup of `EMOTION_ALIASES[e]` (detection.js lines 37-48), in source order. -/
def emotionAlias (e : String) : Option String :=
  if e = "Fear" then some "Fearful"
  else if e = "Disgust" then some "Disgusted"
  else if e = "Surprise" then some "Surprised"
  else if e = "fear" then some "Fearful"
  else if e = "disgust" then some "Disgusted"
  else if e = "surprise" then some "Surprised"
  else if e = "happy" then some "Happy"
  else if e = "sad" then some "Sad"
  else if e = "angry" then some "Angry"
  else if e = "neutral" then some "Neutral"
  else none

/-- Keys of the `EMOTION_ALIASES` table. -/
def emotionAliasKeys : List String :=
  ["Fear", "Disgust", "Surprise", "fear", "disgust", "surprise",
   "happy", "sad", "angry", "neutral"]

/-- Property names that every object literal inherits from
`Object.prototype`: `EMOTION_ALIASES[k]` for these `k` is the inherited
function (or, for `__proto__`, the prototype object itself) — a truthy,
non-string value — because bracket lookup walks the prototype chain after
missing the own keys. -/
def objectPrototypeKeys : List String :=
  ["constructor", "hasOwnProperty", "isPrototypeOf", "propertyIsEnumerable",
   "toLocaleString", "toString", "valueOf", "__defineGetter__",
   "__defineSetter__", "__lookupGetter__", "__lookupSetter__", "__proto__"]

/-- Value held by the `emotion` variable after the normalization at
detection.js lines 157-161: either a string, or a member inherited from
`Object.prototype` (a function or the prototype object), identified by the
property name it was read through. -/
inductive EmotionValue where
  | str (s : String)
  | protoMember (name : String)
  deriving Repr, DecidableEq

/-- Full JavaScript semantics of `EMOTION_ALIASES[e]`: own keys first, then
the prototype chain; `none` models `undefined`.  Every value this returns
is truthy (alias values are nonempty strings, inherited members are
functions/objects). -/
def emotionAliasLookup (e : String) : Option EmotionValue :=
  match emotionAlias e with
  | some v => some (.str v)
  | none =>
    if e ∈ objectPrototypeKeys then some (.protoMember e) else none

/-- Emotion normalization as done in `detectWithBackend` (lines 157-161):
`if (EMOTION_ALIASES[emotion]) emotion = EMOTION_ALIASES[emotion];`.
The lookup walks the prototype chain, so a string naming an
`Object.prototype` member is truthy under the test and `emotion` is
replaced by that inherited member instead of passing through. -/
def normalizeEmotion (e : String) : EmotionValue :=
  match emotionAliasLookup e with
  | some v => v
  | none => .str e

/-- Array `FEATURE_LEVELS` (detection.js line 51). -/
def FEATURE_LEVELS : List String := ["Normal", "Mild", "Moderate", "High", "Severe"]

/-- Table `stressScores` inside `calculateReliefUrgency` (line 371). -/
def stressScoreOf (s : String) : Option ℚ :=
  if s = "Low" then some 2
  else if s = "Medium" then some 5
  else if s = "High" then some 8
  else none

/-- Table `featureLevelScores` inside `calculateReliefUrgency` (line 381). -/
def featureLevelScoreOf (s : String) : Option ℚ :=
  if s = "Normal" then some 0
  else if s = "Mild" then some (3/10)
  else if s = "Moderate" then some (6/10)
  else if s = "High" then some (9/10)
  else if s = "Severe" then some (12/10)
  else none

/-- List `highStressEmotions` inside `calculateReliefUrgency` (line 375). -/
def highStressEmotions : List String := ["Angry", "Fearful", "Sad", "Disgusted"]

/-- Function `calculateReliefUrgency` (detection.js lines 367-388). -/
def calculateReliefUrgency
    (stressLevel emotion eyeStrain browTension facialFatigue : String) : Int :=
  let urgency : ℚ := jsOrQ (stressScoreOf stressLevel) 5
  let urgency := if highStressEmotions.contains emotion then urgency + 1 else urgency
  let urgency := urgency + jsOrQ (featureLevelScoreOf eyeStrain) 0
  let urgency := urgency + jsOrQ (featureLevelScoreOf browTension) 0
  let urgency := urgency + jsOrQ (featureLevelScoreOf facialFatigue) 0
  max 1 (min 10 (jsRound urgency))

/-- Base score from stress level as worded in the spec (Low=2, Medium=5, High=8). -/
def specUrgencyBase (sl : String) : ℚ :=
  if sl = "Low" then 2 else if sl = "Medium" then 5 else 8

/-- Emotion bonus as worded in the spec: +1 iff the emotion is one of
Angry, Fearful, Sad, Disgusted. -/
def specEmotionBonus (e : String) : ℚ :=
  if e = "Angry" ∨ e = "Fearful" ∨ e = "Sad" ∨ e = "Disgusted" then 1 else 0

/-- Per-feature contribution as worded in the spec
(Normal=0, Mild=0.3, Moderate=0.6, High=0.9, Severe=1.2). -/
def specFeatureContrib (f : String) : ℚ :=
  if f = "Normal" then 0
  else if f = "Mild" then 3/10
  else if f = "Moderate" then 6/10
  else if f = "High" then 9/10
  else if f = "Severe" then 12/10
  else 0

/-- Relief-urgency formula as worded in the spec:
round(base + emotionBonus + featureSum) clamped to [1,10]. -/
def specReliefUrgency (sl e f1 f2 f3 : String) : Int :=
  max 1 (min 10 (jsRound
    (specUrgencyBase sl + specEmotionBonus e +
      specFeatureContrib f1 + specFeatureContrib f2 + specFeatureContrib f3)))

/-- A stored detection-history entry as read back from `localStorage`
(`stressResults`): only the fields `analyzeStressTrends` consumes. -/
structure StoredEntry where
  timestamp : Int
  stressLevel : String
  deriving Repr, DecidableEq

def msPerHour : Int := 3600000

def msPerDay : Int := 86400000

/-- Model of `new Date(t).getHours()` on a millisecond timestamp
(UTC hour-of-day; `getHours` is local time, modelled here with zero offset). -/
def hourOf (t : Int) : Int := (t / msPerHour) % 24

/-- Filter to the last 7 days at the top of `analyzeStressTrends` (lines 395-400). -/
def last7Days (now : Int) (results : List StoredEntry) : List StoredEntry :=
  results.filter (fun r => now - 7 * msPerDay ≤ r.timestamp)

/-- Table `stressValues` (line 406). -/
def stressValueOf (s : String) : ℚ :=
  if s = "Low" then 1 else if s = "Medium" then 2 else if s = "High" then 3 else 0

/-- Stable insertion of `a` into `l`: `a` is placed before the first element
`b` with `le a b`. -/
def orderedInsertJS (le : α → α → Bool) (a : α) : List α → List α
  | [] => [a]
  | b :: l => if le a b then a :: b :: l else b :: orderedInsertJS le a l

/-- Stable sort used to model `Array.prototype.sort` with a consistent
comparator: for a total preorder the stable sorted order is unique, so this
agrees with any ECMAScript-conforming sort. -/
def stableSortJS (le : α → α → Bool) : List α → List α
  | [] => []
  | a :: l => orderedInsertJS le a (stableSortJS le l)

/-- Comparator `(a, b) => b[1] - a[1]` of line 427: `a` may precede `b`
iff the comparator is ≤ 0, i.e. `b.2 ≤ a.2`. -/
def countDescLe (a b : Int × Nat) : Bool := decide (b.2 ≤ a.2)

/-- Flattening of the `hourCounts` object of lines 421-425 by `Object.entries`:
integer-like keys enumerate in ascending numeric order, so this is the list
of (hour, count-of-High-entries) pairs for hours with nonzero count,
ascending by hour. -/
def hourBucket (highs : List StoredEntry) (h : Nat) : Option (Int × Nat) :=
  let c := (highs.filter (fun r => hourOf r.timestamp == (h : Int))).length
  if c = 0 then none else some ((h : Int), c)

def hourEntries (now : Int) (results : List StoredEntry) : List (Int × Nat) :=
  let highs := (last7Days now results).filter (fun r => r.stressLevel == "High")
  (List.range 24).filterMap (hourBucket highs)

/-- Record `StressTrend` returned by `analyzeStressTrends`.
`totalScansThisWeek` is absent (`undefined`) on the insufficient-data
branch, hence `Option`. -/
structure StressTrend where
  trend : String
  avgStress : Option String
  peakTimes : List Int
  totalScansThisWeek : Option Nat
  improvementRate : Int
  deriving Repr, DecidableEq

/-- Function `analyzeStressTrends` (detection.js lines 393-438), with the current
time and the parsed `stressResults` log passed explicitly. -/
def analyzeStressTrends (now : Int) (results : List StoredEntry) : StressTrend :=
  let l := last7Days now results
  if l.length = 0 then
    { trend := "insufficient_data", avgStress := none, peakTimes := [],
      totalScansThisWeek := none, improvementRate := 0 }
  else
    let avgStress : ℚ := (l.map (fun r => stressValueOf r.stressLevel)).sum / l.length
    let firstHalf := l.take (l.length / 2)
    let secondHalf := l.drop (l.length / 2)
    let firstAvg : ℚ :=
      if 0 < firstHalf.length then
        (firstHalf.map (fun r => stressValueOf r.stressLevel)).sum / firstHalf.length
      else avgStress
    let secondAvg : ℚ :=
      if 0 < secondHalf.length then
        (secondHalf.map (fun r => stressValueOf r.stressLevel)).sum / secondHalf.length
      else avgStress
    let trend :=
      if secondAvg < firstAvg - 3/10 then "improving"
      else if secondAvg > firstAvg + 3/10 then "worsening"
      else "stable"
    let peakTimes := ((stableSortJS countDescLe (hourEntries now results)).take 3).map (·.1)
    { trend := trend,
      avgStress := some (if avgStress ≤ 3/2 then "Low"
        else if avgStress ≤ 5/2 then "Medium" else "High"),
      peakTimes := peakTimes,
      totalScansThisWeek := some l.length,
      improvementRate := jsRound ((firstAvg - secondAvg) * (333/10)) }

/-- Comparator ordering hour buckets by descending count with ties broken by
ascending hour-of-day, as in the amended reading of the peak-times clause. -/
def countThenHourLe (a b : Int × Nat) : Bool :=
  decide (b.2 < a.2) || (decide (a.2 = b.2) && decide (a.1 ≤ b.1))

/-- Peak hours per the amended spec wording: hour buckets sorted by
descending High-stress count, ties by ascending hour-of-day, top 3. -/
def peakTimesByCountThenHour (now : Int) (results : List StoredEntry) : List Int :=
  ((stableSortJS countThenHourLe (hourEntries now results)).take 3).map (·.1)

/-- Image statistics produced by `analyzeImageData` (lines 191-264): global
pixel averages plus the two derived scores attached on resolve. -/
structure ImageFeatures where
  brightness : ℚ
  contrast : ℚ
  redChannel : ℚ
  greenChannel : ℚ
  blueChannel : ℚ
  skinToneScore : ℚ
  imageQuality : ℚ
  deriving Repr, DecidableEq

/-- Function `detectSkinTone` (lines 269-277). -/
def detectSkinTone (r g b : ℚ) : ℚ :=
  let q1 := r / (g + 1)
  let q2 := r / (b + 1)
  if q1 > 9/10 ∧ q1 < 9/5 ∧ q2 > 4/5 ∧ q2 < 5/2 ∧ r > 80 then
    min 1 ((q1 + q2) / 4)
  else 3/10

/-- Function `calculateImageQuality` (lines 282-286). -/
def calculateImageQuality (brightness contrast : ℚ) : ℚ :=
  let brightnessScore := 1 - |brightness - 128| / 128
  let contrastScore := min 1 (contrast / 50)
  brightnessScore * (6/10) + contrastScore * (4/10)

/-- Resolve step of `analyzeImageData` (lines 239-247): package the raw pixel
averages together with the derived skin-tone and quality scores. -/
def mkImageFeatures (brightness contrast red green blue : ℚ) : ImageFeatures :=
  { brightness := brightness, contrast := contrast,
    redChannel := red, greenChannel := green, blueChannel := blue,
    skinToneScore := detectSkinTone red green blue,
    imageQuality := calculateImageQuality brightness contrast }

/-- Emotion-probability template selected by `detectEmotionClientSide`
(lines 292-336), in JS object insertion order. -/
def emotionTemplate (brightness contrast redChannel skinToneScore : ℚ) :
    List (String × ℚ) :=
  if brightness > 140 ∧ skinToneScore > 1/2 then
    [("Happy", 35/100), ("Neutral", 30/100), ("Surprised", 15/100),
     ("Sad", 5/100), ("Angry", 5/100), ("Fearful", 5/100), ("Disgusted", 5/100)]
  else if brightness < 100 ∨ redChannel > 150 then
    [("Sad", 25/100), ("Angry", 20/100), ("Fearful", 15/100), ("Neutral", 15/100),
     ("Disgusted", 10/100), ("Happy", 8/100), ("Surprised", 7/100)]
  else if contrast > 60 then
    [("Angry", 22/100), ("Fearful", 18/100), ("Surprised", 18/100),
     ("Neutral", 15/100), ("Sad", 12/100), ("Disgusted", 10/100), ("Happy", 5/100)]
  else
    [("Neutral", 35/100), ("Happy", 20/100), ("Sad", 12/100), ("Surprised", 12/100),
     ("Angry", 8/100), ("Fearful", 7/100), ("Disgusted", 6/100)]

/-- Result pair of `detectEmotionClientSide`. -/
structure EmotionResult where
  emotion : String
  allProbabilities : List (String × Int)
  deriving Repr, DecidableEq

/-- Function `detectEmotionClientSide` (lines 292-362).  The per-category
draws `(Math.random() - 0.5) * 0.1` are passed in as the `jitter` list
(each admissible value lies in [-0.05, 0.05)). -/
def detectEmotionClientSide (f : ImageFeatures) (jitter : List ℚ) : EmotionResult :=
  let scores := emotionTemplate f.brightness f.contrast f.redChannel f.skinToneScore
  let perturbed := List.zipWith
    (fun (ep : String × ℚ) v => (ep.1, max (1/100) (ep.2 + v))) scores jitter
  let total := (perturbed.map Prod.snd).sum
  let allProbabilities := perturbed.map (fun ep => (ep.1, jsRound (ep.2 / total * 100)))
  let dominant := allProbabilities.foldl
    (fun acc ep => if ep.2 > acc.2 then ep else acc) ("Neutral", 0)
  { emotion := dominant.1, allProbabilities := allProbabilities }

/-- Function `calculateStressLevel` (lines 443-448); the unused `features`
parameter is dropped. -/
def calculateStressLevel (emotion : String) : String :=
  (emotionStressFactor emotion).getD "Medium"

/-- Feature-level triple produced by `calculateFacialFeatures`. -/
structure FacialFeatureLevels where
  eyeStrain : String
  browTension : String
  facialFatigue : String
  deriving Repr, DecidableEq

/-- Function `calculateFacialFeatures` (lines 453-483); the three
`Math.random()` draws are the oracle inputs `r1 r2 r3` (admissible values
lie in [0,1)). -/
def calculateFacialFeatures (stressLevel : String) (features : Option ImageFeatures)
    (r1 r2 r3 : ℚ) : FacialFeatureLevels :=
  let eyeStrainIndex : Int :=
    if stressLevel = "High" then 3 + ⌊r1 * 2⌋
    else if stressLevel = "Medium" then 1 + ⌊r1 * 3⌋
    else ⌊r1 * 2⌋
  let browTensionIndex : Int :=
    if stressLevel = "High" then 2 + ⌊r2 * 3⌋
    else if stressLevel = "Medium" then 1 + ⌊r2 * 2⌋
    else ⌊r2 * 2⌋
  let fatigueIndex : Int :=
    if stressLevel = "High" then 2 + ⌊r3 * 3⌋
    else if stressLevel = "Medium" then 1 + ⌊r3 * 2⌋
    else ⌊r3 * 2⌋
  let fatigueIndex :=
    match features with
    | some f => if f.brightness < 100 then min (fatigueIndex + 1) 4 else fatigueIndex
    | none => fatigueIndex
  let browTensionIndex :=
    match features with
    | some f => if f.contrast > 60 then min (browTensionIndex + 1) 4 else browTensionIndex
    | none => browTensionIndex
  { eyeStrain := FEATURE_LEVELS.getD eyeStrainIndex.toNat "",
    browTension := FEATURE_LEVELS.getD browTensionIndex.toNat "",
    facialFatigue := FEATURE_LEVELS.getD fatigueIndex.toNat "" }

/-- Function `calculateConfidence` (lines 488-498); `rand` is the
`Math.random()` draw (admissible values lie in [0,1)). -/
def calculateConfidence (f : ImageFeatures) (rand : ℚ) (isBackend : Bool) : Int :=
  if isBackend then 89
  else jsRound (max 70 (min 95
    (f.imageQuality * 60 + f.skinToneScore * 30 + (rand * 15 - 5))))

/-- Confidence formula as worded in the spec:
clamp(imageQuality*60 + skinTone*30 + jitter, 70, 95), rounded. -/
def specConfidenceFormula (imageQuality skinTone jitter : ℚ) : Int :=
  jsRound (max 70 (min 95 (imageQuality * 60 + skinTone * 30 + jitter)))

/-- Outcome of the health-endpoint fetch in `checkBackendHealth`:
a network error (which also models expiry of the 3000ms abort timer), or a
response with its `ok` flag and the `status` field of the parsed JSON body
(`none` means the body failed to parse, i.e. `response.json()` threw). -/
inductive HealthFetch where
  | netError : HealthFetch
  | response (ok : Bool) (status : Option String) : HealthFetch
  deriving Repr, DecidableEq

/-- Observable outcome of `checkBackendHealth`: the new value of the
`backendAvailable` module flag, whether `loadFaceApiModels()` was invoked,
and the returned boolean. -/
structure HealthCheckOutcome where
  backendAvailable : Option Bool
  faceApiModelsLoadTriggered : Bool
  returned : Bool
  deriving Repr, DecidableEq

/-- Function `checkBackendHealth` (detection.js lines 107-132), as a
function of the fetch outcome and the previous `backendAvailable` value.
Note the `response.ok == false` path: the `if` body is skipped, no
exception is raised, and the function falls through to `return false`
without touching `backendAvailable` or loading models. -/
def checkBackendHealth (f : HealthFetch) (prevAvailable : Option Bool) :
    HealthCheckOutcome :=
  match f with
  | .netError => ⟨some false, true, false⟩
  | .response true (some s) => ⟨some (s == "healthy"), false, true⟩
  | .response true none => ⟨some false, true, false⟩
  | .response false _ => ⟨prevAvailable, false, false⟩

/-- Parsed JSON body of a `/api/detect/` response (lines 154-181). -/
structure BackendBody where
  success : Bool
  error : Option String := none
  emotion : String := ""
  stressLevel : String := ""
  eyeStrain : Option String := none
  browTension : Option String := none
  facialFatigue : Option String := none
  confidence : Option Int := none
  faceDetected : Bool := false
  facesCount : Option Nat := none
  deriving Repr, DecidableEq

/-- Outcome of the `/api/detect/` fetch in `detectWithBackend`: a network
error, or a response with its `ok` flag and parsed body (`none` = the body
failed to parse). -/
inductive BackendFetch where
  | netError : BackendFetch
  | response (ok : Bool) (body : Option BackendBody) : BackendFetch
  deriving Repr, DecidableEq

/-- JavaScript `x || d` for an optional natural number (`0` is falsy). -/
def jsOrN (x : Option Nat) (d : Nat) : Nat :=
  match x with
  | some v => if v = 0 then d else v
  | none => d

/-- Record `StressTrend`-enriched detection result: the canonical output
shape of the pipeline.  Fields that a given path does not set are `none`
(`undefined` in JS). -/
structure DetectionResult where
  emotion : EmotionValue
  stressLevel : String
  eyeStrain : String
  browTension : String
  facialFatigue : String
  confidence : Int
  detectionMethod : String
  reliefUrgency : Option Int := none
  stressTrends : Option StressTrend := none
  allProbabilities : Option (List (String × Int)) := none
  facesCount : Option Nat := none
  userName : Option String := none
  userEmail : Option String := none
  deriving Repr, DecidableEq

/-- Function `detectWithBackend` (detection.js lines 138-186).  Every
failure (network error, non-2xx status, malformed body, `success:false`)
is re-thrown, modelled as `Except.error`.  Note the returned result does
NOT set `reliefUrgency` or `stressTrends`. -/
def detectWithBackend (f : BackendFetch) : Except String DetectionResult :=
  match f with
  | .netError => .error "Failed to fetch"
  | .response false _ => .error "HTTP error!"
  | .response true none => .error "Unexpected end of JSON input"
  | .response true (some b) =>
    if b.success then
      .ok { emotion := normalizeEmotion b.emotion,
            stressLevel := b.stressLevel,
            eyeStrain := jsOrS b.eyeStrain "Normal",
            browTension := jsOrS b.browTension "Normal",
            facialFatigue := jsOrS b.facialFatigue "Normal",
            confidence := jsOrI b.confidence 85,
            detectionMethod := "CNN Model (Backend)",
            facesCount := some (jsOrN b.facesCount 1) }
    else .error (jsOrS b.error "Detection failed")

/-- Test whether the remote inference call fails (network error, non-2xx
HTTP status, malformed body, or a success:false response), i.e. whether
`detectWithBackend` throws. -/
def backendCallFailed (f : BackendFetch) : Bool :=
  match detectWithBackend f with
  | .ok _ => false
  | .error _ => true

/-- Sub-scores produced by `analyzeFacialLandmarks` (lines 504-631),
treated as oracle inputs to `processDetections` (the landmark geometry
itself is outside the claims under verification). -/
structure FacialScores where
  eyeFatigueScore : ℚ
  browTensionScore : ℚ
  mouthTensionScore : ℚ
  darkCircleScore : ℚ
  wrinkleScore : ℚ
  fatigueScore : ℚ
  overallStressScore : ℚ
  deriving Repr, DecidableEq

/-- Data of a successful face-api.js detection consumed by
`processDetections`: the 7-category expression probabilities (each in
[0,1]), the landmark-analysis scores, and the number of detected faces. -/
structure FaceApiData where
  neutral : ℚ
  happy : ℚ
  sad : ℚ
  angry : ℚ
  fearful : ℚ
  disgusted : ℚ
  surprised : ℚ
  facial : FacialScores
  facesCount : Nat
  deriving Repr, DecidableEq

/-- Mapping of a continuous score to the 5-level ordinal scale,
`FEATURE_LEVELS[Math.min(4, Math.floor(score * 5))]` (lines 791-793). -/
def featureLevelOfScore (s : ℚ) : String :=
  FEATURE_LEVELS.getD (min 4 ⌊s * 5⌋).toNat ""

/-- Function `processDetections` (detection.js lines 726-853), restricted to
the fields of the canonical result shape. -/
def processDetections (d : FaceApiData) (now : Int) (history : List StoredEntry) :
    DetectionResult :=
  let pN := jsRound (d.neutral * 100)
  let pH := jsRound (d.happy * 100)
  let pS := jsRound (d.sad * 100)
  let pA := jsRound (d.angry * 100)
  let pF := jsRound (d.fearful * 100)
  let pD := jsRound (d.disgusted * 100)
  let pU := jsRound (d.surprised * 100)
  let adj1 := d.facial.browTensionScore > 6/10 ∧ pA > 15
  let pA := if adj1 then min 100 (pA + 20) else pA
  let pN := if adj1 then max 0 (pN - 15) else pN
  let adj2 := d.facial.eyeFatigueScore > 1/2
  let pS := if adj2 then min 100 (pS + 15) else pS
  let pN := if adj2 then max 0 (pN - 10) else pN
  let allProbabilities : List (String × Int) :=
    [("Neutral", pN), ("Happy", pH), ("Sad", pS), ("Angry", pA),
     ("Fearful", pF), ("Disgusted", pD), ("Surprised", pU)]
  let dominant := allProbabilities.foldl
    (fun acc ep => if ep.2 > acc.2 then ep else acc) ("Neutral", 0)
  let stressLevel := (emotionStressFactor dominant.1).getD "Medium"
  let stressLevel :=
    if d.facial.overallStressScore > 7/10 ∧ stressLevel = "Low" then "Medium"
    else if d.facial.overallStressScore > 8/10 ∧ stressLevel = "Medium" then "High"
    else stressLevel
  let eyeStrain := featureLevelOfScore d.facial.eyeFatigueScore
  let browTension := featureLevelOfScore d.facial.browTensionScore
  let facialFatigue := featureLevelOfScore d.facial.fatigueScore
  { emotion := EmotionValue.str dominant.1, stressLevel := stressLevel,
    eyeStrain := eyeStrain, browTension := browTension,
    facialFatigue := facialFatigue,
    confidence := jsRound ((dominant.2 : ℚ) * (85/100) + 15),
    detectionMethod := "Face-API.js Neural Network",
    reliefUrgency := some (calculateReliefUrgency stressLevel dominant.1
      eyeStrain browTension facialFatigue),
    stressTrends := some (analyzeStressTrends now history),
    allProbabilities := some allProbabilities,
    facesCount := some d.facesCount }

/-- Environment of one `detectStress()` invocation: the uploaded image, the
module flags, the outcomes of the external calls, the pixel statistics of
the image, the random draws, the stored history, the clock and the current
user. -/
structure DetectEnv where
  uploadedImage : Option String
  backendAvailable : Option Bool
  healthFetch : HealthFetch
  backendFetch : BackendFetch
  faceApiDefined : Bool
  faceApiModelsLoaded : Bool
  modelsLoadSucceeds : Bool
  faceApiDetection : Option FaceApiData
  brightness : ℚ
  contrast : ℚ
  redChannel : ℚ
  greenChannel : ℚ
  blueChannel : ℚ
  emotionJitter : List ℚ
  featureRand1 : ℚ
  featureRand2 : ℚ
  featureRand3 : ℚ
  confidenceRand : ℚ
  now : Int
  history : List StoredEntry
  currentUser : Option (String × String)

/-- Image features of the environment's image as computed by
`analyzeImageData`. -/
def envFeatures (env : DetectEnv) : ImageFeatures :=
  mkImageFeatures env.brightness env.contrast env.redChannel
    env.greenChannel env.blueChannel

/-- Function `detectClientSideFallback` (detection.js lines 859-918),
restricted to the fields of the canonical result shape. -/
def detectClientSideFallback (env : DetectEnv) : DetectionResult :=
  let features := envFeatures env
  let er := detectEmotionClientSide features env.emotionJitter
  let stressLevel := calculateStressLevel er.emotion
  let ff := calculateFacialFeatures stressLevel (some features)
    env.featureRand1 env.featureRand2 env.featureRand3
  { emotion := EmotionValue.str er.emotion, stressLevel := stressLevel,
    eyeStrain := ff.eyeStrain, browTension := ff.browTension,
    facialFatigue := ff.facialFatigue,
    confidence := calculateConfidence features env.confidenceRand false,
    detectionMethod := "Image Analysis (Fallback)",
    reliefUrgency := some (calculateReliefUrgency stressLevel er.emotion
      ff.eyeStrain ff.browTension ff.facialFatigue),
    stressTrends := some (analyzeStressTrends env.now env.history),
    allProbabilities := some er.allProbabilities }

/-- Function `detectClientSide` (detection.js lines 637-657): use the
face-api result when face-api is present, its models load, and a face is
found; otherwise (model-load failure, detection error, or no face — all of
which make `detectWithFaceApi` yield null) fall back to basic analysis. -/
def detectClientSide (env : DetectEnv) : DetectionResult :=
  let modelsReady := env.faceApiDefined &&
    (env.faceApiModelsLoaded || env.modelsLoadSucceeds)
  match (if modelsReady then env.faceApiDetection else none) with
  | some d => processDetections d env.now env.history
  | none => detectClientSideFallback env

/-- User-identity stamping done in `detectStress` (lines 951-954, 966-969). -/
def attachUserInfo (env : DetectEnv) (r : DetectionResult) : DetectionResult :=
  { r with
    userName := some (jsOrS (env.currentUser.map Prod.fst) "Anonymous"),
    userEmail := some (jsOrS (env.currentUser.map Prod.snd) "") }

/-- Default result returned by `detectStress` when no image was supplied
(lines 927-938). -/
def defaultDetectionResult : DetectionResult :=
  { emotion := EmotionValue.str "Neutral", stressLevel := "Low", eyeStrain := "Normal",
    browTension := "Normal", facialFatigue := "Normal", confidence := 75,
    detectionMethod := "Default" }

/-- Function `detectStress` (detection.js lines 924-972): probe the backend
if the flag is unset, use the backend when available, catch any backend
failure and fall through to client-side detection.  Totality of this
definition models that no exception escapes `detectStress`. -/
def detectStress (env : DetectEnv) : DetectionResult :=
  match env.uploadedImage with
  | none => defaultDetectionResult
  | some _ =>
    let avail :=
      match env.backendAvailable with
      | none => (checkBackendHealth env.healthFetch env.backendAvailable).backendAvailable
      | some b => some b
    if avail = some true then
      match detectWithBackend env.backendFetch with
      | .ok r => attachUserInfo env r
      | .error _ => attachUserInfo env (detectClientSide env)
    else
      attachUserInfo env (detectClientSide env)

/-- Function `saveResult` (detection.js lines 1009-1013): parse the stored
log, push the new result, write it back. -/
def saveResult (r : DetectionResult) (store : List DetectionResult) :
    List DetectionResult :=
  store ++ [r]

/-- Function `getResultsHistory` (detection.js lines 1018-1020). -/
def getResultsHistory (store : List DetectionResult) : List DetectionResult :=
  store

/-- Concrete history for exercising the peak-times computation: two
High-stress entries within the 7-day window, the first at hour 14, the
second at hour 9 (day 9 of the epoch, `now` at day 10). -/
def histPeak : List StoredEntry :=
  [⟨777600000 + 14 * 3600000, "High"⟩, ⟨777600000 + 9 * 3600000, "High"⟩]

/-- Concrete successful backend response body. -/
def backendOkBody : BackendBody :=
  { success := true, emotion := "Happy", stressLevel := "Low", faceDetected := true }

/-- Concrete environment in which the backend is available and the remote
call succeeds. -/
def envBackendOk : DetectEnv :=
  { uploadedImage := some "data-url",
    backendAvailable := some true,
    healthFetch := .netError,
    backendFetch := .response true (some backendOkBody),
    faceApiDefined := false, faceApiModelsLoaded := false,
    modelsLoadSucceeds := false, faceApiDetection := none,
    brightness := 128, contrast := 50, redChannel := 128,
    greenChannel := 128, blueChannel := 128,
    emotionJitter := [0, 0, 0, 0, 0, 0, 0],
    featureRand1 := 0, featureRand2 := 0, featureRand3 := 0,
    confidenceRand := 0, now := 0, history := [], currentUser := none }

/-- Concrete environment in which the backend is believed available but the
remote call fails with a network error. -/
def envBackendFail : DetectEnv :=
  { envBackendOk with backendFetch := .netError }

/-- Concrete pixel statistics for the confidence claim: brightness 153
(consistent with channel means 100/200/50 under the 0.299/0.587/0.114 luma
weights), contrast 50; the skin-tone ratios fall outside the accepted band
so `detectSkinTone` returns 0.3, and `calculateImageQuality` gives 113/128,
putting the pre-jitter confidence base at 1983/32 = 61.96875. -/
def confFeatures : ImageFeatures := mkImageFeatures 153 50 100 200 50

/-- Concrete pixel statistics selecting the dark (negative-leaning) emotion
template: brightness 90 < 100. -/
def darkFeatures : ImageFeatures := mkImageFeatures 90 40 120 120 120

/-- Concrete admissible jitter assignment (each entry in [-0.05, 0.05))
under which the dark template renormalizes to percentages
24.5, 20.5, 15.5, 15.5, 10.5, 8.5, 5 — whose roundings sum to 103. -/
def skewJitter : List ℚ :=
  [-(1/200), 1/200, 1/200, 1/200, 1/200, 1/200, -(1/50)]

/-- Zero jitter assignment (admissible: each entry is in [-0.05, 0.05)). -/
def zeroJitter : List ℚ := [0, 0, 0, 0, 0, 0, 0]

/-! ### Helper lemmas -/

theorem jsRound_mono {a b : ℚ} (h : a ≤ b) : jsRound a ≤ jsRound b := by
  unfold jsRound
  exact Int.floor_mono (by linarith)

theorem clamp110_bounds (z : Int) :
    1 ≤ max 1 (min 10 z) ∧ max 1 (min 10 z) ≤ 10 :=
  ⟨le_max_left _ _, max_le (by norm_num) (min_le_left _ _)⟩

theorem clamp110_mono {z w : Int} (h : z ≤ w) :
    max 1 (min 10 z) ≤ max 1 (min 10 w) :=
  max_le_max le_rfl (min_le_min le_rfl h)

theorem calculateReliefUrgency_mem_range (sl e f1 f2 f3 : String) :
    1 ≤ calculateReliefUrgency sl e f1 f2 f3 ∧
      calculateReliefUrgency sl e f1 f2 f3 ≤ 10 := by
  unfold calculateReliefUrgency
  exact clamp110_bounds _

theorem jsOrQ_featureLevelScoreOf (f : String) :
    jsOrQ (featureLevelScoreOf f) 0 = specFeatureContrib f := by
  unfold featureLevelScoreOf specFeatureContrib
  split_ifs <;> norm_num [jsOrQ]

theorem urgency_bonus_if (e : String) (u : ℚ) :
    (if highStressEmotions.contains e then u + 1 else u) = u + specEmotionBonus e := by
  by_cases h : e = "Angry" ∨ e = "Fearful" ∨ e = "Sad" ∨ e = "Disgusted"
  · have hc : highStressEmotions.contains e = true := by
      rcases h with rfl | rfl | rfl | rfl <;> decide
    rw [if_pos hc, specEmotionBonus, if_pos h]
  · have hc : highStressEmotions.contains e = false := by
      push_neg at h
      simp [highStressEmotions, h.1, h.2.1, h.2.2.1, h.2.2.2]
    simp only [hc, Bool.false_eq_true, if_false, specEmotionBonus, if_neg h, add_zero]

theorem calculateReliefUrgency_eq_spec (sl e f1 f2 f3 : String)
    (hsl : sl = "Low" ∨ sl = "Medium" ∨ sl = "High") :
    calculateReliefUrgency sl e f1 f2 f3 = specReliefUrgency sl e f1 f2 f3 := by
  simp only [calculateReliefUrgency, specReliefUrgency]
  rw [urgency_bonus_if, jsOrQ_featureLevelScoreOf, jsOrQ_featureLevelScoreOf,
    jsOrQ_featureLevelScoreOf]
  rcases hsl with rfl | rfl | rfl <;> simp [jsOrQ, stressScoreOf, specUrgencyBase]

/-- C3: for stressLevel in {Low, Medium, High}, any emotion string and any
three feature levels, `calculateReliefUrgency` returns
round(base + emotionBonus + featureSum) clamped to [1,10] with the
documented tables, the result lies in [1,10], and holding the other inputs
fixed it is monotonically non-decreasing as the stress level moves
Low to Medium to High. -/
theorem C3_calculateReliefUrgency_spec (sl e f1 f2 f3 : String)
    (hsl : sl = "Low" ∨ sl = "Medium" ∨ sl = "High")
    (h1 : f1 ∈ FEATURE_LEVELS) (h2 : f2 ∈ FEATURE_LEVELS) (h3 : f3 ∈ FEATURE_LEVELS) :
    calculateReliefUrgency sl e f1 f2 f3 = specReliefUrgency sl e f1 f2 f3 ∧
    1 ≤ calculateReliefUrgency sl e f1 f2 f3 ∧
    calculateReliefUrgency sl e f1 f2 f3 ≤ 10 ∧
    calculateReliefUrgency "Low" e f1 f2 f3 ≤ calculateReliefUrgency "Medium" e f1 f2 f3 ∧
    calculateReliefUrgency "Medium" e f1 f2 f3 ≤ calculateReliefUrgency "High" e f1 f2 f3 := by
  refine ⟨calculateReliefUrgency_eq_spec _ _ _ _ _ hsl,
    (calculateReliefUrgency_mem_range _ _ _ _ _).1,
    (calculateReliefUrgency_mem_range _ _ _ _ _).2, ?_, ?_⟩
  · rw [calculateReliefUrgency_eq_spec "Low" e f1 f2 f3 (Or.inl rfl),
      calculateReliefUrgency_eq_spec "Medium" e f1 f2 f3 (Or.inr (Or.inl rfl))]
    simp only [specReliefUrgency]
    apply clamp110_mono
    apply jsRound_mono
    have hb : specUrgencyBase "Low" ≤ specUrgencyBase "Medium" := by
      simp [specUrgencyBase]
      norm_num
    linarith
  · rw [calculateReliefUrgency_eq_spec "Medium" e f1 f2 f3 (Or.inr (Or.inl rfl)),
      calculateReliefUrgency_eq_spec "High" e f1 f2 f3 (Or.inr (Or.inr rfl))]
    simp only [specReliefUrgency]
    apply clamp110_mono
    apply jsRound_mono
    have hb : specUrgencyBase "Medium" ≤ specUrgencyBase "High" := by
      simp [specUrgencyBase]
      norm_num
    linarith

/-- Witness for C3 at stressLevel Medium, emotion Sad, features
Mild/Moderate/Mild. -/
theorem C3_calculateReliefUrgency_spec_witness :
    calculateReliefUrgency "Medium" "Sad" "Mild" "Moderate" "Mild" =
      specReliefUrgency "Medium" "Sad" "Mild" "Moderate" "Mild" ∧
    1 ≤ calculateReliefUrgency "Medium" "Sad" "Mild" "Moderate" "Mild" ∧
    calculateReliefUrgency "Medium" "Sad" "Mild" "Moderate" "Mild" ≤ 10 ∧
    calculateReliefUrgency "Low" "Sad" "Mild" "Moderate" "Mild" ≤
      calculateReliefUrgency "Medium" "Sad" "Mild" "Moderate" "Mild" ∧
    calculateReliefUrgency "Medium" "Sad" "Mild" "Moderate" "Mild" ≤
      calculateReliefUrgency "High" "Sad" "Mild" "Moderate" "Mild" :=
  C3_calculateReliefUrgency_spec "Medium" "Sad" "Mild" "Moderate" "Mild"
    (Or.inr (Or.inl rfl)) (by decide) (by decide) (by decide)

/-- C4 counterexample: "toString" is not in the documented alias table,
yet the lookup hits the inherited `Object.prototype.toString`, which is
truthy, so the code replaces the emotion by that inherited member instead
of passing the string through. -/
theorem C4_normalizeEmotion_prototype_counterexample :
    normalizeEmotion "toString" ≠ EmotionValue.str "toString" ∧
    normalizeEmotion "toString" = EmotionValue.protoMember "toString" := by
  constructor <;> decide

set_option maxHeartbeats 2000000 in
/-- C4 (amended): every alias of the documented table maps to its canonical
form; a string that is neither an alias key nor the name of an
`Object.prototype` member passes through unchanged; a string naming an
`Object.prototype` member is replaced by the inherited (truthy, non-string)
member instead of passing through; and away from the prototype-member
names, normalizing twice equals normalizing once (the result is a string
that normalization fixes). -/
theorem C4_normalizeEmotion_amended :
    (normalizeEmotion "Fear" = EmotionValue.str "Fearful" ∧
     normalizeEmotion "fear" = EmotionValue.str "Fearful" ∧
     normalizeEmotion "Disgust" = EmotionValue.str "Disgusted" ∧
     normalizeEmotion "disgust" = EmotionValue.str "Disgusted" ∧
     normalizeEmotion "Surprise" = EmotionValue.str "Surprised" ∧
     normalizeEmotion "surprise" = EmotionValue.str "Surprised" ∧
     normalizeEmotion "happy" = EmotionValue.str "Happy" ∧
     normalizeEmotion "sad" = EmotionValue.str "Sad" ∧
     normalizeEmotion "angry" = EmotionValue.str "Angry" ∧
     normalizeEmotion "neutral" = EmotionValue.str "Neutral") ∧
    (∀ s : String, s ∉ emotionAliasKeys → s ∉ objectPrototypeKeys →
      normalizeEmotion s = EmotionValue.str s) ∧
    (∀ s : String, s ∈ objectPrototypeKeys →
      normalizeEmotion s = EmotionValue.protoMember s) ∧
    (∀ s : String, s ∉ objectPrototypeKeys →
      ∃ t, normalizeEmotion s = EmotionValue.str t ∧
        normalizeEmotion t = EmotionValue.str t) := by
  refine ⟨by decide, ?_, ?_, ?_⟩
  · intro s hs hp
    have ha : emotionAlias s = none := by
      unfold emotionAlias
      split_ifs with hc hc hc hc hc hc hc hc hc hc
      all_goals try rfl
      all_goals (subst hc; exact absurd (by decide) hs)
    unfold normalizeEmotion emotionAliasLookup
    rw [ha, if_neg hp]
  · intro s hp
    simp only [objectPrototypeKeys, List.mem_cons, List.not_mem_nil, or_false] at hp
    rcases hp with rfl | rfl | rfl | rfl | rfl | rfl | rfl | rfl | rfl | rfl | rfl | rfl <;>
      decide
  · intro s hp
    rcases h : emotionAlias s with _ | v
    · have hns : normalizeEmotion s = EmotionValue.str s := by
        unfold normalizeEmotion emotionAliasLookup
        rw [h, if_neg hp]
      exact ⟨s, hns, hns⟩
    · have hv : v = "Fearful" ∨ v = "Disgusted" ∨ v = "Surprised" ∨ v = "Happy" ∨
          v = "Sad" ∨ v = "Angry" ∨ v = "Neutral" := by
        unfold emotionAlias at h
        split_ifs at h
        all_goals first
          | exact Option.noConfusion h
          | (injection h with h2; subst h2; tauto)
      have hns : normalizeEmotion s = EmotionValue.str v := by
        unfold normalizeEmotion emotionAliasLookup
        rw [h]
      refine ⟨v, hns, ?_⟩
      rcases hv with rfl | rfl | rfl | rfl | rfl | rfl | rfl <;> decide

/-- Witness for C4 (amended): pass-through of an unlisted non-prototype
string, replacement of a prototype-member name, and a fixed point after one
normalization of an alias. -/
theorem C4_normalizeEmotion_amended_witness :
    normalizeEmotion "Bored" = EmotionValue.str "Bored" ∧
    normalizeEmotion "hasOwnProperty" = EmotionValue.protoMember "hasOwnProperty" ∧
    ∃ t, normalizeEmotion "Fear" = EmotionValue.str t ∧
      normalizeEmotion t = EmotionValue.str t :=
  ⟨C4_normalizeEmotion_amended.2.1 "Bored" (by decide) (by decide),
   C4_normalizeEmotion_amended.2.2.1 "hasOwnProperty" (by decide),
   C4_normalizeEmotion_amended.2.2.2 "Fear" (by decide)⟩

/-- C6: on a history that is empty or whose entries are all older than 7
days, `analyzeStressTrends` returns trend insufficient_data with a null
average and empty peak times. -/
theorem C6_analyzeStressTrends_stale (now : Int) (hist : List StoredEntry)
    (h : ∀ r ∈ hist, r.timestamp < now - 7 * msPerDay) :
    analyzeStressTrends now hist =
      { trend := "insufficient_data", avgStress := none, peakTimes := [],
        totalScansThisWeek := none, improvementRate := 0 } := by
  have hl : last7Days now hist = [] := by
    rw [last7Days, List.filter_eq_nil_iff]
    intro a ha
    have := h a ha
    simp only [decide_eq_true_eq]
    omega
  simp [analyzeStressTrends, hl]

/-- Witness for C6: a single entry 10 days old. -/
theorem C6_analyzeStressTrends_stale_witness :
    analyzeStressTrends (10 * 86400000) [⟨0, "High"⟩] =
      { trend := "insufficient_data", avgStress := none, peakTimes := [],
        totalScansThisWeek := none, improvementRate := 0 } :=
  C6_analyzeStressTrends_stale (10 * 86400000) [⟨0, "High"⟩] (by decide)

/-- C10: saving a result appends exactly one entry equal to it at the end
of the persisted log, leaves every pre-existing entry unchanged, and the
history read back afterwards is the old history followed by the new
result. -/
theorem C10_saveResult_append (r : DetectionResult) (h : List DetectionResult) :
    getResultsHistory (saveResult r h) = getResultsHistory h ++ [r] ∧
    (saveResult r h).length = h.length + 1 ∧
    ∀ i, i < h.length → (saveResult r h)[i]? = h[i]? := by
  refine ⟨rfl, by simp [saveResult], ?_⟩
  intro i hi
  simp [saveResult, getResultsHistory, List.getElem?_append_left hi]

/-- Witness for C10 on a one-element log. -/
theorem C10_saveResult_append_witness :
    getResultsHistory (saveResult defaultDetectionResult [defaultDetectionResult]) =
      getResultsHistory [defaultDetectionResult] ++ [defaultDetectionResult] ∧
    (saveResult defaultDetectionResult [defaultDetectionResult])[0]? =
      [defaultDetectionResult][0]? :=
  ⟨(C10_saveResult_append defaultDetectionResult [defaultDetectionResult]).1,
   (C10_saveResult_append defaultDetectionResult [defaultDetectionResult]).2.2 0
     (by decide)⟩

/-- C5 counterexample: on a non-2xx HTTP response `checkBackendHealth`
leaves the availability flag unchanged (here: still unset) and does not
trigger model initialization, contradicting the claim that every failure
sets the flag to false and pre-warms the fallback. -/
theorem C5_checkBackendHealth_non2xx_counterexample :
    (checkBackendHealth (.response false none) none).backendAvailable ≠ some false ∧
    (checkBackendHealth (.response false none) none).faceApiModelsLoadTriggered = false := by
  decide

/-- C5 (amended): a network error/timeout or a malformed health payload
sets the availability flag to false and triggers lazy model
initialization; a non-2xx HTTP response leaves the flag unchanged and does
not trigger initialization; HTTP 200 with a healthy status sets the flag
to true. -/
theorem C5_checkBackendHealth_amended (prev : Option Bool) (body : Option String) :
    checkBackendHealth .netError prev =
      { backendAvailable := some false, faceApiModelsLoadTriggered := true,
        returned := false } ∧
    checkBackendHealth (.response true none) prev =
      { backendAvailable := some false, faceApiModelsLoadTriggered := true,
        returned := false } ∧
    checkBackendHealth (.response true (some "healthy")) prev =
      { backendAvailable := some true, faceApiModelsLoadTriggered := false,
        returned := true } ∧
    (checkBackendHealth (.response false body) prev).backendAvailable = prev ∧
    (checkBackendHealth (.response false body) prev).faceApiModelsLoadTriggered = false := by
  refine ⟨rfl, rfl, ?_, rfl, rfl⟩
  simp [checkBackendHealth]

/-- Witness for C5 (amended) at an unset flag and an empty body. -/
theorem C5_checkBackendHealth_amended_witness :
    checkBackendHealth .netError none =
      { backendAvailable := some false, faceApiModelsLoadTriggered := true,
        returned := false } ∧
    checkBackendHealth (.response true none) none =
      { backendAvailable := some false, faceApiModelsLoadTriggered := true,
        returned := false } ∧
    checkBackendHealth (.response true (some "healthy")) none =
      { backendAvailable := some true, faceApiModelsLoadTriggered := false,
        returned := true } ∧
    (checkBackendHealth (.response false none) none).backendAvailable = none ∧
    (checkBackendHealth (.response false none) none).faceApiModelsLoadTriggered = false :=
  C5_checkBackendHealth_amended none none

theorem mem_orderedInsertJS {le : α → α → Bool} {a x : α} {l : List α} :
    x ∈ orderedInsertJS le a l ↔ x = a ∨ x ∈ l := by
  induction l with
  | nil => simp [orderedInsertJS]
  | cons b t ih =>
    unfold orderedInsertJS
    split_ifs
    · simp
    · simp only [List.mem_cons, ih]
      tauto

theorem mem_stableSortJS {le : α → α → Bool} {x : α} {l : List α} :
    x ∈ stableSortJS le l ↔ x ∈ l := by
  induction l with
  | nil => simp [stableSortJS]
  | cons b t ih =>
    simp only [stableSortJS, mem_orderedInsertJS, ih, List.mem_cons]

theorem orderedInsertJS_congr {le1 le2 : α → α → Bool} {a : α} {l : List α}
    (h : ∀ b ∈ l, le1 a b = le2 a b) :
    orderedInsertJS le1 a l = orderedInsertJS le2 a l := by
  induction l with
  | nil => rfl
  | cons b t ih =>
    unfold orderedInsertJS
    rw [h b (by simp)]
    split_ifs
    · rfl
    · rw [ih (fun x hx => h x (by simp [hx]))]

theorem stableSortJS_congr {le1 le2 : α → α → Bool} {R : α → α → Prop} {l : List α}
    (hR : l.Pairwise R) (hle : ∀ a b, R a b → le1 a b = le2 a b) :
    stableSortJS le1 l = stableSortJS le2 l := by
  induction l with
  | nil => rfl
  | cons a t ih =>
    rcases List.pairwise_cons.mp hR with ⟨ha, ht⟩
    unfold stableSortJS
    rw [ih ht]
    exact orderedInsertJS_congr
      (fun b hb => hle a b (ha b (mem_stableSortJS.mp hb)))

theorem hourBucket_fst {highs : List StoredEntry} {h : Nat} {x : Int × Nat}
    (hx : x ∈ hourBucket highs h) : x.1 = (h : Int) := by
  simp only [hourBucket] at hx
  split_ifs at hx with hc
  · exact absurd hx (by simp)
  · simp only [Option.mem_def, Option.some_inj] at hx
    rw [← hx]

theorem hourEntries_pairwise (now : Int) (hist : List StoredEntry) :
    (hourEntries now hist).Pairwise (fun a b => a.1 < b.1) := by
  unfold hourEntries
  refine List.Pairwise.filterMap _ ?_ (List.pairwise_lt_range 24)
  intro a b hab x hx y hy
  rw [hourBucket_fst hx, hourBucket_fst hy]
  exact_mod_cast hab

theorem countDescLe_eq_countThenHourLe {a b : Int × Nat} (h : a.1 < b.1) :
    countDescLe a b = countThenHourLe a b := by
  unfold countDescLe countThenHourLe
  rw [Bool.eq_iff_iff]
  simp only [Bool.or_eq_true, Bool.and_eq_true, decide_eq_true_eq]
  omega

theorem hourEntries_of_last7Days_nil {now : Int} {hist : List StoredEntry}
    (h : last7Days now hist = []) : hourEntries now hist = [] := by
  unfold hourEntries
  rw [h]
  simp [hourBucket]

/-- C7 counterexample: two tied High-stress hours, hour 14 encountered
first in the history, hour 9 second; the code returns peak times [9, 14]
(ascending-hour tie-break from integer-keyed object enumeration plus
stable sort), not the first-encountered order [14, 9]. -/
theorem C7_peakTimes_counterexample :
    (analyzeStressTrends 864000000 histPeak).peakTimes ≠ [14, 9] ∧
    (analyzeStressTrends 864000000 histPeak).peakTimes = [9, 14] := by
  constructor <;> decide

theorem analyzeStressTrends_peakTimes (now : Int) (hist : List StoredEntry) :
    (analyzeStressTrends now hist).peakTimes =
      if (last7Days now hist).length = 0 then []
      else ((stableSortJS countDescLe (hourEntries now hist)).take 3).map (·.1) := by
  by_cases hl : (last7Days now hist).length = 0 <;> simp [analyzeStressTrends, hl]

/-- C7 (amended): the peak times are the top-3 hours by High-stress count
in descending count order, with ties between equal counts broken by
ascending hour-of-day (not first-encountered order), and at most 3 hours
are returned. -/
theorem C7_peakTimes_amended (now : Int) (hist : List StoredEntry) :
    (analyzeStressTrends now hist).peakTimes = peakTimesByCountThenHour now hist ∧
    (analyzeStressTrends now hist).peakTimes.length ≤ 3 := by
  have hsort : stableSortJS countDescLe (hourEntries now hist) =
      stableSortJS countThenHourLe (hourEntries now hist) :=
    stableSortJS_congr (hourEntries_pairwise now hist)
      (fun a b hab => countDescLe_eq_countThenHourLe hab)
  rw [peakTimesByCountThenHour, analyzeStressTrends_peakTimes, ← hsort]
  constructor
  · split_ifs with hl
    · rw [hourEntries_of_last7Days_nil (List.length_eq_zero.mp hl)]
      rfl
    · rfl
  · split_ifs with hl
    · simp
    · simp only [List.length_map, List.length_take]
      omega

/-- Witness for C7 (amended) on the two-entry tied history. -/
theorem C7_peakTimes_amended_witness :
    (analyzeStressTrends 864000000 histPeak).peakTimes =
      peakTimesByCountThenHour 864000000 histPeak ∧
    (analyzeStressTrends 864000000 histPeak).peakTimes.length ≤ 3 :=
  C7_peakTimes_amended 864000000 histPeak

theorem detectWithBackend_method {f : BackendFetch} {r : DetectionResult}
    (h : detectWithBackend f = Except.ok r) :
    r.detectionMethod = "CNN Model (Backend)" ∧
    r.reliefUrgency = none ∧ r.stressTrends = none := by
  rcases f with _ | ⟨ok, body⟩
  · exact Except.noConfusion h
  · rcases ok with _ | _
    · exact Except.noConfusion h
    · rcases body with _ | b
      · exact Except.noConfusion h
      · rcases hs : b.success with _ | _
        · simp [detectWithBackend, hs] at h
        · simp [detectWithBackend, hs] at h
          subst h
          exact ⟨rfl, rfl, rfl⟩

theorem detectClientSide_enriched (env : DetectEnv) :
    ∃ u st, (detectClientSide env).reliefUrgency = some u ∧
      1 ≤ u ∧ u ≤ 10 ∧ (detectClientSide env).stressTrends = some st := by
  simp only [detectClientSide]
  rcases hd : (if env.faceApiDefined &&
      (env.faceApiModelsLoaded || env.modelsLoadSucceeds) then
      env.faceApiDetection else none) with _ | d
  · exact ⟨_, _, rfl, (calculateReliefUrgency_mem_range _ _ _ _ _).1,
      (calculateReliefUrgency_mem_range _ _ _ _ _).2, rfl⟩
  · exact ⟨_, _, rfl, (calculateReliefUrgency_mem_range _ _ _ _ _).1,
      (calculateReliefUrgency_mem_range _ _ _ _ _).2, rfl⟩

theorem detectClientSide_method (env : DetectEnv) :
    (detectClientSide env).detectionMethod = "Face-API.js Neural Network" ∨
    (detectClientSide env).detectionMethod = "Image Analysis (Fallback)" := by
  simp only [detectClientSide]
  rcases hd : (if env.faceApiDefined &&
      (env.faceApiModelsLoaded || env.modelsLoadSucceeds) then
      env.faceApiDetection else none) with _ | d
  · exact Or.inr rfl
  · exact Or.inl rfl

theorem detectStress_cases (env : DetectEnv) (img : String)
    (himg : env.uploadedImage = some img) :
    (∃ r, detectWithBackend env.backendFetch = Except.ok r ∧
      detectStress env = attachUserInfo env r) ∨
    detectStress env = attachUserInfo env (detectClientSide env) := by
  simp only [detectStress, himg]
  split_ifs with hav
  · rcases hd : detectWithBackend env.backendFetch with msg | r
    · exact Or.inr rfl
    · exact Or.inl ⟨r, rfl, rfl⟩
  · exact Or.inr rfl

/-- C1 counterexample: with an image supplied and a successful CNN-backend
detection, the returned DetectionResult has no reliefUrgency and no
stressTrends field, contradicting the claimed shared enrichment of every
path. -/
theorem C1_backend_missing_enrichment :
    (detectStress envBackendOk).detectionMethod = "CNN Model (Backend)" ∧
    (detectStress envBackendOk).reliefUrgency = none ∧
    (detectStress envBackendOk).stressTrends = none :=
  ⟨rfl, rfl, rfl⟩

/-- C1 (amended): with an image supplied, every DetectionResult produced by
a non-CNN-backend path (client-side landmark analyzer or pixel-heuristic
fallback) contains reliefUrgency, an integer in [1,10], and stressTrends;
the CNN-backend path omits both fields. -/
theorem C1_enrichment_on_fallback_paths (env : DetectEnv) (img : String)
    (himg : env.uploadedImage = some img)
    (hm : (detectStress env).detectionMethod ≠ "CNN Model (Backend)") :
    ∃ u st, (detectStress env).reliefUrgency = some u ∧ 1 ≤ u ∧ u ≤ 10 ∧
      (detectStress env).stressTrends = some st := by
  rcases detectStress_cases env img himg with ⟨r, hok, heq⟩ | heq
  · exfalso
    apply hm
    rw [heq]
    exact (detectWithBackend_method hok).1
  · rw [heq]
    exact detectClientSide_enriched env

/-- Witness for C1 (amended): backend attempted but failing, pixel-heuristic
fallback produces the result. -/
theorem C1_enrichment_on_fallback_paths_witness :
    ∃ u st, (detectStress envBackendFail).reliefUrgency = some u ∧
      1 ≤ u ∧ u ≤ 10 ∧ (detectStress envBackendFail).stressTrends = some st :=
  C1_enrichment_on_fallback_paths envBackendFail "data-url" rfl (by decide)

/-- C2: with an image supplied, whenever the remote inference call fails
(network error, non-2xx status, malformed body, or success:false), the
result `detectStress` returns comes from a fallback path whose
detectionMethod is not the CNN-backend tag; `detectStress` is a total
function of its environment, so no exception propagates. -/
theorem C2_fallback_on_backend_failure (env : DetectEnv) (img : String)
    (himg : env.uploadedImage = some img)
    (hfail : backendCallFailed env.backendFetch = true) :
    ((detectStress env).detectionMethod = "Face-API.js Neural Network" ∨
     (detectStress env).detectionMethod = "Image Analysis (Fallback)") ∧
    (detectStress env).detectionMethod ≠ "CNN Model (Backend)" := by
  rcases detectStress_cases env img himg with ⟨r, hok, heq⟩ | heq
  · exfalso
    unfold backendCallFailed at hfail
    rw [hok] at hfail
    exact Bool.noConfusion hfail
  · rw [heq]
    have hm := detectClientSide_method env
    refine ⟨hm, ?_⟩
    rcases hm with h | h <;>
      rw [show (attachUserInfo env (detectClientSide env)).detectionMethod =
        (detectClientSide env).detectionMethod from rfl, h] <;> decide

/-- Witness for C2 on a network-failing backend call. -/
theorem C2_fallback_on_backend_failure_witness :
    ((detectStress envBackendFail).detectionMethod = "Face-API.js Neural Network" ∨
     (detectStress envBackendFail).detectionMethod = "Image Analysis (Fallback)") ∧
    (detectStress envBackendFail).detectionMethod ≠ "CNN Model (Backend)" :=
  C2_fallback_on_backend_failure envBackendFail "data-url" rfl (by decide)

theorem jsRound_clamp7095_bounds (x : ℚ) :
    70 ≤ jsRound (max 70 (min 95 x)) ∧ jsRound (max 70 (min 95 x)) ≤ 95 := by
  have h1 : (70:ℚ) ≤ max 70 (min 95 x) := le_max_left _ _
  have h2 : max 70 (min 95 x) ≤ 95 := max_le (by norm_num) (min_le_left _ _)
  constructor
  · rw [jsRound]
    exact Int.le_floor.mpr (by push_cast; linarith)
  · rw [jsRound]
    have h3 : (⌊max 70 (min 95 x) + 1/2⌋ : ℤ) < 96 := by
      rw [Int.floor_lt]
      push_cast
      linarith
    omega

theorem confFeatures_scores :
    confFeatures.imageQuality = 113/128 ∧ confFeatures.skinToneScore = 3/10 := by
  constructor <;>
    (simp only [confFeatures, mkImageFeatures, calculateImageQuality, detectSkinTone];
      norm_num)

/-- C8 counterexample: the claim's jitter range [-5, 15] is wrong — the
code draws `Math.random()*15 - 5`, which lies in [-5, 10).  At a feature
set with confidence base 61.96875 the claimed formula at jitter 15 yields
77, but no admissible random draw can make `calculateConfidence` return
77. -/
theorem C8_confidence_jitter_counterexample :
    specConfidenceFormula confFeatures.imageQuality confFeatures.skinToneScore 15 = 77 ∧
    ¬ ∃ rand : ℚ, 0 ≤ rand ∧ rand < 1 ∧
      calculateConfidence confFeatures rand false = 77 := by
  obtain ⟨hq, hs⟩ := confFeatures_scores
  constructor
  · rw [specConfidenceFormula, hq, hs]
    rw [show min 95 ((113:ℚ)/128 * 60 + 3/10 * 30 + 15) = 113/128 * 60 + 3/10 * 30 + 15 from
      min_eq_right (by norm_num)]
    rw [show max 70 ((113:ℚ)/128 * 60 + 3/10 * 30 + 15) = 113/128 * 60 + 3/10 * 30 + 15 from
      max_eq_right (by norm_num)]
    rw [jsRound]
    rw [show (113:ℚ)/128 * 60 + 3/10 * 30 + 15 + 1/2 = 2479/32 from by norm_num]
    rw [Int.floor_eq_iff] <;> norm_num
  · rintro ⟨rand, hr0, hr1, hc⟩
    simp only [calculateConfidence, Bool.false_eq_true, if_false, hq, hs] at hc
    set x := (113:ℚ)/128 * 60 + 3/10 * 30 + (rand * 15 - 5) with hx
    have hxlt : x < 72 := by
      rw [hx]
      nlinarith
    have hclt : max 70 (min 95 x) < 72 :=
      max_lt (by norm_num) (lt_of_le_of_lt (min_le_right _ _) hxlt)
    have hround : jsRound (max 70 (min 95 x)) < 73 := by
      rw [jsRound, Int.floor_lt]
      push_cast
      linarith
    rw [hc] at hround
    exact absurd hround (by norm_num)

/-- C8 (amended): the non-backend confidence equals the spec's
clamp-then-round formula with jitter rand*15-5, the jitter ranges over
[-5, 10) (not [-5, 15]), the result always lies in [70, 95], and
imageQuality is brightnessScore*0.6 + contrastScore*0.4 with the
documented sub-scores. -/
theorem C8_confidence_amended (f : ImageFeatures) (rand : ℚ)
    (h0 : 0 ≤ rand) (h1 : rand < 1) :
    calculateConfidence f rand false =
      specConfidenceFormula f.imageQuality f.skinToneScore (rand * 15 - 5) ∧
    -5 ≤ rand * 15 - 5 ∧ rand * 15 - 5 < 10 ∧
    70 ≤ calculateConfidence f rand false ∧
    calculateConfidence f rand false ≤ 95 ∧
    ∀ b c : ℚ, calculateImageQuality b c =
      (1 - |b - 128| / 128) * (6/10) + min 1 (c / 50) * (4/10) := by
  refine ⟨rfl, by linarith, by linarith, ?_, ?_, fun b c => rfl⟩
  · exact (jsRound_clamp7095_bounds _).1
  · exact (jsRound_clamp7095_bounds _).2

/-- Witness for C8 (amended) at the concrete feature set and rand = 1/2. -/
theorem C8_confidence_amended_witness :
    calculateConfidence confFeatures (1/2) false =
      specConfidenceFormula confFeatures.imageQuality confFeatures.skinToneScore
        ((1/2) * 15 - 5) ∧
    -5 ≤ (1/2 : ℚ) * 15 - 5 ∧ (1/2 : ℚ) * 15 - 5 < 10 ∧
    70 ≤ calculateConfidence confFeatures (1/2) false ∧
    calculateConfidence confFeatures (1/2) false ≤ 95 ∧
    ∀ b c : ℚ, calculateImageQuality b c =
      (1 - |b - 128| / 128) * (6/10) + min 1 (c / 50) * (4/10) :=
  C8_confidence_amended confFeatures (1/2) (by norm_num) (by norm_num)

theorem jsRound_err_le (q : ℚ) : (jsRound q : ℚ) - q ≤ 1/2 := by
  rw [jsRound]
  have h := Int.floor_le (q + 1/2)
  linarith

theorem jsRound_err_ge (q : ℚ) : -(1/2) ≤ (jsRound q : ℚ) - q := by
  rw [jsRound]
  have h := Int.lt_floor_add_one (q + 1/2)
  linarith

theorem sum_map_jsRound_bounds (l : List ℚ) :
    l.sum - l.length / 2 ≤ ((l.map jsRound).sum : ℚ) ∧
    ((l.map jsRound).sum : ℚ) ≤ l.sum + l.length / 2 := by
  induction l with
  | nil => simp
  | cons a t ih =>
    rcases ih with ⟨ih1, ih2⟩
    have e1 := jsRound_err_le a
    have e2 := jsRound_err_ge a
    simp only [List.map_cons, List.sum_cons, List.length_cons]
    push_cast at ih1 ih2 ⊢
    constructor <;> linarith

theorem le_sum_of_forall_le (l : List ℚ) (c : ℚ) (h : ∀ x ∈ l, c ≤ x) :
    c * l.length ≤ l.sum := by
  induction l with
  | nil => simp
  | cons a t ih =>
    have ha := h a (by simp)
    have ht := ih (fun x hx => h x (by simp [hx]))
    simp only [List.sum_cons, List.length_cons]
    push_cast
    rw [mul_add, mul_one]
    linarith

theorem emotionTemplate_length (b c r s : ℚ) : (emotionTemplate b c r s).length = 7 := by
  unfold emotionTemplate
  split_ifs <;> rfl

theorem zipWith_max_lower {α β : Type} (c : ℚ) (g : α → β → ℚ)
    (l1 : List α) (l2 : List β) :
    ∀ x ∈ List.zipWith (fun a b => max c (g a b)) l1 l2, c ≤ x := by
  induction l1 generalizing l2 with
  | nil => simp
  | cons a t ih =>
    cases l2 with
    | nil => simp
    | cons b u =>
      intro x hx
      rcases List.mem_cons.mp hx with rfl | hx
      · exact le_max_left _ _
      · exact ih u x hx

/-- C9 (amended): for every input feature set and admissible jitter
assignment, the seven integer percentages sum to 100 with at most plus or
minus 3 deviation (the plus-minus-1 tolerance of the claim is too tight;
see the counterexample reaching 103). -/
theorem C9_percentages_sum_bounds (f : ImageFeatures) (jitter : List ℚ)
    (hlen : jitter.length = 7)
    (hj : ∀ v ∈ jitter, -(1/20) ≤ v ∧ v < 1/20) :
    97 ≤ ((detectEmotionClientSide f jitter).allProbabilities.map Prod.snd).sum ∧
    ((detectEmotionClientSide f jitter).allProbabilities.map Prod.snd).sum ≤ 103 := by
  simp only [detectEmotionClientSide]
  rw [List.map_map]
  set scores := emotionTemplate f.brightness f.contrast f.redChannel f.skinToneScore
    with hscores
  set perturbed := List.zipWith
    (fun (ep : String × ℚ) v => (ep.1, max (1/100) (ep.2 + v))) scores jitter
    with hpert
  set total := (perturbed.map Prod.snd).sum with htotal
  set l := perturbed.map Prod.snd with hl
  -- the mapped rounding list is (l.map (fun p => p / total * 100)).map jsRound
  have hcomp : perturbed.map
        (Prod.snd ∘ fun ep => (ep.1, jsRound (ep.2 / total * 100))) =
      (l.map (fun p => p / total * 100)).map jsRound := by
    rw [hl, List.map_map, List.map_map]
    rfl
  rw [hcomp]
  -- elements of l are at least 1/100
  have hlow : ∀ x ∈ l, (1/100 : ℚ) ≤ x := by
    rw [hl, hpert, List.map_zipWith]
    exact zipWith_max_lower (1/100) (fun (ep : String × ℚ) v => ep.2 + v) scores jitter
  have hlen7 : l.length = 7 := by
    rw [hl, hpert]
    simp [List.length_zipWith, emotionTemplate_length, hscores, hlen]
  have htpos : 0 < total := by
    have h7 : (1/100 : ℚ) * l.length ≤ l.sum := le_sum_of_forall_le l (1/100) hlow
    rw [hlen7] at h7
    rw [htotal]
    push_cast at h7
    linarith
  have hxsum : (l.map (fun p => p / total * 100)).sum = 100 := by
    have hrw : ∀ p ∈ l, p / total * 100 = p * (100 / total) := by
      intro p _
      rw [div_mul_eq_mul_div, mul_div_assoc]
    rw [List.map_congr_left hrw, List.sum_map_mul_right, List.map_id'']
    · rw [← htotal, mul_comm, div_mul_cancel₀ _ (ne_of_gt htpos)]
    · exact fun x => rfl
  have hxlen : (l.map (fun p => p / total * 100)).length = 7 := by
    rw [List.length_map, hlen7]
  obtain ⟨b1, b2⟩ := sum_map_jsRound_bounds (l.map (fun p => p / total * 100))
  rw [hxsum, hxlen] at b1 b2
  set S := (((l.map (fun p => p / total * 100)).map jsRound).sum : ℤ) with hS
  constructor
  · by_contra hcon
    push_neg at hcon
    have : S ≤ 96 := by omega
    have : (S : ℚ) ≤ 96 := by exact_mod_cast this
    norm_num at b1
    linarith
  · by_contra hcon
    push_neg at hcon
    have : 104 ≤ S := by omega
    have : (104 : ℚ) ≤ (S : ℚ) := by exact_mod_cast this
    norm_num at b2
    linarith

/-- Witness for C9 (amended): dark-template features with zero jitter. -/
theorem C9_percentages_sum_bounds_witness :
    97 ≤ ((detectEmotionClientSide darkFeatures zeroJitter).allProbabilities.map
      Prod.snd).sum ∧
    ((detectEmotionClientSide darkFeatures zeroJitter).allProbabilities.map
      Prod.snd).sum ≤ 103 :=
  C9_percentages_sum_bounds darkFeatures zeroJitter rfl (by norm_num [zeroJitter])

/-- C9 counterexample: an admissible jitter assignment on the dark template
under which the seven integer percentages sum to 103, outside the claimed
100 plus or minus 1 tolerance. -/
theorem C9_percentages_sum_counterexample :
    (∀ v ∈ skewJitter, -(1/20) ≤ v ∧ v < 1/20) ∧
    ((detectEmotionClientSide darkFeatures skewJitter).allProbabilities.map
      Prod.snd).sum = 103 := by
  constructor
  · intro v hv
    simp only [skewJitter, List.mem_cons, List.not_mem_nil, or_false] at hv
    rcases hv with rfl | rfl | rfl | rfl | rfl | rfl | rfl <;> norm_num
  · simp only [detectEmotionClientSide, darkFeatures, mkImageFeatures, skewJitter]
    norm_num [emotionTemplate, detectSkinTone, List.zipWith, max_def, jsRound]
